import Mathlib

/-!
Shallow embedding of the wasmd CLI transaction builders
(`x/wasm/client/cli/tx.go`) and proofs about their validation logic.

External collaborators (bech32 address parsing, the SDK coin parser,
the keyring, the wasmd `types` constructors and validators, and the
authz message constructor) are taken as function parameters of the
embedded builders, matching the narrow interfaces through which the
CLI code reaches them.  Go standard-library helpers whose behaviour
the CLI logic depends on (`strconv.ParseBool`, `hex.DecodeString`)
are embedded directly.
-/

/-- Bech32 account address, kept as its normalized string rendering
(the CLI only ever passes addresses around as opaque validated values). -/
abbrev Addr := String

/-- One coin as produced by the SDK coin parser. -/
structure Coin where
  denom : String
  amount : Nat
deriving DecidableEq, Repr

/-- A normalized coin set (`sdk.Coins`). -/
abbrev Coins := List Coin

/-- Embeds `types.AccessConfig`: who may instantiate uploaded code. -/
inductive AccessConfig where
  | nobody
  | everybody
  | anyOfAddresses (addresses : List Addr)
deriving DecidableEq, Repr

/-- Embeds the `types.ContractAuthzLimitX` variants produced by the grant command:
`NewMaxCallsLimit`, `NewMaxFundsLimit`, `NewCombinedLimit`. -/
inductive ContractAuthzLimitX where
  | maxCalls (remaining : Nat)
  | maxFunds (amounts : Coins)
  | combined (callsRemaining : Nat) (amounts : Coins)
deriving DecidableEq, Repr

/-- Embeds the `types.ContractAuthzFilterX` variants produced by the grant command:
`NewAllowAllMessagesFilter`, `NewAcceptedMessageKeysFilter`,
`NewAcceptedMessagesFilter` (raw messages kept as their byte strings). -/
inductive ContractAuthzFilterX where
  | allowAll
  | acceptedMessageKeys (keys : List String)
  | acceptedMessages (messages : List String)
deriving DecidableEq, Repr

/-- Embeds `types.ContractGrant`: contract + limit + filter. -/
structure ContractGrant where
  contract : Addr
  limit : ContractAuthzLimitX
  filter : ContractAuthzFilterX
deriving DecidableEq, Repr

/-- Embeds `types.CodeGrant`: a code hash (raw bytes of the token, kept as the
string) plus an optional instantiate permission. -/
structure CodeGrant where
  codeHash : String
  instantiatePermission : Option AccessConfig
deriving DecidableEq, Repr

/-- The authorization value wrapped into the grant message. -/
inductive Authorization where
  | contractExecution (grant : ContractGrant)
  | contractMigration (grant : ContractGrant)
  | storeCode (grants : List CodeGrant)
deriving DecidableEq, Repr

/-- Embeds `authz.MsgGrant` as assembled by the grant commands; expiration is an
optional Unix timestamp (`*time.Time` built by `getExpireTime`). -/
structure MsgGrant where
  granter : Addr
  grantee : Addr
  auth : Authorization
  expiration : Option Int
deriving DecidableEq, Repr

/-- Embeds `types.MsgInstantiateContract` as assembled by `parseInstantiateArgs`. -/
structure MsgInstantiateContract where
  sender : Addr
  codeID : Nat
  label : String
  funds : Coins
  msg : String
  admin : String
deriving DecidableEq, Repr

/-- Embeds `types.MsgInstantiateContract2` as assembled by `InstantiateContract2Cmd`;
the salt is the byte list produced by hex decoding. -/
structure MsgInstantiateContract2 where
  sender : Addr
  admin : String
  codeID : Nat
  label : String
  msg : String
  funds : Coins
  salt : List Nat
  fixMsg : Bool
deriving DecidableEq, Repr

/-- Embeds `types.MsgExecuteContract` as assembled by `parseExecuteArgs`. -/
structure MsgExecuteContract where
  sender : Addr
  contract : String
  funds : Coins
  msg : String
deriving DecidableEq, Repr

/-- Go `strconv.ParseBool`: accepts exactly these twelve token
spellings, anything else is a syntax error (`none`). -/
def goParseBool (s : String) : Option Bool :=
  if s = "1" ∨ s = "t" ∨ s = "T" ∨ s = "TRUE" ∨ s = "true" ∨ s = "True" then
    some true
  else if s = "0" ∨ s = "f" ∨ s = "F" ∨ s = "FALSE" ∨ s = "false" ∨ s = "False" then
    some false
  else
    none

/-- Render of Go `%q` on a plain string (used in error texts). -/
def quoteStr (s : String) : String := "\"" ++ s ++ "\""

/-- Error text of Go `strconv.ParseBool` on malformed input. -/
def parseBoolErr (s : String) : String :=
  "strconv.ParseBool: parsing " ++ quoteStr s ++ ": invalid syntax"

/-- Limit resolution: the `switch` over `{maxFundsStr, maxCalls,
noTokenTransfer}` inlined in `GrantAuthorizationCmd` (tx.go lines 487-505).
The SDK coin parser is a parameter. -/
def resolveLimit (parseCoins : String → Except String Coins)
    (maxFundsStr : String) (maxCalls : Nat) (noTokenTransfer : Bool) :
    Except String ContractAuthzLimitX :=
  if maxFundsStr ≠ "" ∧ maxCalls ≠ 0 ∧ noTokenTransfer = false then
    match parseCoins maxFundsStr with
    | Except.error e => Except.error ("max funds: " ++ e)
    | Except.ok maxFunds => Except.ok (ContractAuthzLimitX.combined maxCalls maxFunds)
  else if maxFundsStr ≠ "" ∧ maxCalls = 0 ∧ noTokenTransfer = false then
    match parseCoins maxFundsStr with
    | Except.error e => Except.error ("max funds: " ++ e)
    | Except.ok maxFunds => Except.ok (ContractAuthzLimitX.maxFunds maxFunds)
  else if maxCalls ≠ 0 ∧ noTokenTransfer = true ∧ maxFundsStr = "" then
    Except.ok (ContractAuthzLimitX.maxCalls maxCalls)
  else
    Except.error "invalid limit setup"

/-- Filter resolution: the `switch` over `{allowAllMsgs, msgKeys, rawMsgs}`
inlined in `GrantAuthorizationCmd` (tx.go lines 507-523). -/
def resolveFilter (allowAllMsgs : Bool) (msgKeys rawMsgs : List String) :
    Except String ContractAuthzFilterX :=
  if (allowAllMsgs = true ∧ msgKeys ≠ []) ∨ (allowAllMsgs = true ∧ rawMsgs ≠ []) ∨
      (msgKeys ≠ [] ∧ rawMsgs ≠ []) then
    Except.error "cannot set more than one filter within one grant"
  else if allowAllMsgs = true then
    Except.ok ContractAuthzFilterX.allowAll
  else if msgKeys ≠ [] then
    Except.ok (ContractAuthzFilterX.acceptedMessageKeys msgKeys)
  else if rawMsgs ≠ [] then
    Except.ok (ContractAuthzFilterX.acceptedMessages rawMsgs)
  else
    Except.error "invalid filter setup"

/-- Embeds `getExpireTime` (tx.go lines 609-619): a zero expiration flag means no
expiration; otherwise `time.Unix(exp, 0)`, modelled by the timestamp itself. -/
def getExpireTime (exp : Int) : Option Int :=
  if exp = 0 then none else some exp

/-- Flag name constant (tx.go line 40), used in the deprecated-flag error. -/
def flagInstantiateByAnyOfAddress : String := "instantiate-anyof-addresses"

/-- The per-entry address-parsing loop of `parseAccessConfigFlags`
(tx.go lines 141-147): the first entry that fails to parse aborts with
an error naming the offending value. -/
def parseAddrList (parseAddr : String → Except String Addr) :
    List String → Except String (List Addr)
  | [] => Except.ok []
  | v :: rest =>
    match parseAddr v with
    | Except.error e => Except.error ("parse " ++ quoteStr v ++ ": " ++ e)
    | Except.ok a =>
      match parseAddrList parseAddr rest with
      | Except.error e => Except.error e
      | Except.ok t => Except.ok (a :: t)

/-- The nobody-flag tail of `parseAccessConfigFlags` (tx.go lines 173-186). -/
def accessConfigNobody (nobodyStr : String) : Except String (Option AccessConfig) :=
  if nobodyStr ≠ "" then
    match goParseBool nobodyStr with
    | none => Except.error ("boolean value expected for instantiate by nobody: " ++ parseBoolErr nobodyStr)
    | some true => Except.ok (some AccessConfig.nobody)
    | some false => Except.ok none
  else Except.ok none

/-- Embeds `parseAccessConfigFlags` (tx.go lines 135-187): turns the four
instantiate-permission flags into an optional `AccessConfig`.  Bech32
parsing is a parameter. -/
def parseAccessConfigFlags (parseAddr : String → Except String Addr)
    (addrs : List String) (onlyAddrStr everybodyStr nobodyStr : String) :
    Except String (Option AccessConfig) :=
  if addrs ≠ [] then
    match parseAddrList parseAddr addrs with
    | Except.error e => Except.error e
    | Except.ok acceptedAddrs => Except.ok (some (AccessConfig.anyOfAddresses acceptedAddrs))
  else if onlyAddrStr ≠ "" then
    Except.error ("not supported anymore. Use: " ++ flagInstantiateByAnyOfAddress)
  else if everybodyStr ≠ "" then
    match goParseBool everybodyStr with
    | none => Except.error ("boolean value expected for instantiate by everybody: " ++ parseBoolErr everybodyStr)
    | some true => Except.ok (some AccessConfig.everybody)
    | some false => accessConfigNobody nobodyStr
  else accessConfigNobody nobodyStr

/-- The admin-resolution block of `parseInstantiateArgs` (tx.go lines
331-346): try a direct bech32 parse, fall back to keyring lookup, wrap
a keyring failure as an admin error; an empty admin string passes
through untouched. -/
def resolveAdmin (parseAddr krKey : String → Except String Addr)
    (adminStr : String) : Except String String :=
  if adminStr ≠ "" then
    match parseAddr adminStr with
    | Except.ok addr => Except.ok addr
    | Except.error _ =>
      match krKey adminStr with
      | Except.error e => Except.error ("admin " ++ e)
      | Except.ok admin => Except.ok admin
  else Except.ok adminStr

/-- Embeds `parseInstantiateArgs` (tx.go lines 291-358).  `parseUint` embeds
`strconv.ParseUint`, `parseCoins` the SDK coin parser, `parseAddr` bech32
parsing, `krKey` the keyring lookup (alias to rendered address), and
`validateBasic` the message's structural validator (`none` = valid). -/
def parseInstantiateArgs
    (parseUint : String → Except String Nat)
    (parseCoins : String → Except String Coins)
    (parseAddr krKey : String → Except String Addr)
    (validateBasic : MsgInstantiateContract → Option String)
    (rawCodeID initMsg : String) (sender : Addr)
    (amountStr label adminStr : String) (noAdmin : Bool) :
    Except String MsgInstantiateContract :=
  match parseUint rawCodeID with
  | Except.error e => Except.error e
  | Except.ok codeID =>
    match parseCoins amountStr with
    | Except.error e => Except.error ("amount: " ++ e)
    | Except.ok amount =>
      if label = "" then
        Except.error "label is required on all contracts"
      else if adminStr = "" ∧ noAdmin = false then
        Except.error "you must set an admin or explicitly pass --no-admin to make it immutable (wasmd issue #719)"
      else if adminStr ≠ "" ∧ noAdmin = true then
        Except.error "you set an admin and passed --no-admin, those cannot both be true"
      else
        match resolveAdmin parseAddr krKey adminStr with
        | Except.error e => Except.error e
        | Except.ok adminResolved =>
          match validateBasic (MsgInstantiateContract.mk sender codeID label amount initMsg adminResolved) with
          | some e => Except.error e
          | none => Except.ok (MsgInstantiateContract.mk sender codeID label amount initMsg adminResolved)

/-- Value of one hex digit, as in Go `encoding/hex.fromHexChar`. -/
def hexDigitVal (c : Char) : Option Nat :=
  if c ≥ '0' ∧ c ≤ '9' then some (c.toNat - Char.toNat '0')
  else if c ≥ 'a' ∧ c ≤ 'f' then some (c.toNat - Char.toNat 'a' + 10)
  else if c ≥ 'A' ∧ c ≤ 'F' then some (c.toNat - Char.toNat 'A' + 10)
  else none

/-- Core of Go `hex.Decode`: consume digit pairs; a trailing single
character is an invalid-byte error when it is not a hex digit, and an
odd-length error otherwise. -/
def hexDecodeCore : List Char → Except String (List Nat)
  | [] => Except.ok []
  | [a] =>
    match hexDigitVal a with
    | none => Except.error ("encoding/hex: invalid byte: " ++ quoteStr (String.mk [a]))
    | some _ => Except.error "encoding/hex: odd length hex string"
  | a :: b :: rest =>
    match hexDigitVal a with
    | none => Except.error ("encoding/hex: invalid byte: " ++ quoteStr (String.mk [a]))
    | some x =>
      match hexDigitVal b with
      | none => Except.error ("encoding/hex: invalid byte: " ++ quoteStr (String.mk [b]))
      | some y =>
        match hexDecodeCore rest with
        | Except.error e => Except.error e
        | Except.ok t => Except.ok ((16 * x + y) :: t)

/-- Go `hex.DecodeString` on the salt argument. -/
def hexDecode (s : String) : Except String (List Nat) :=
  hexDecodeCore s.data

/-- The `RunE` body of `InstantiateContract2Cmd` (tx.go lines 249-277)
after client-context plumbing: hex-decode the salt argument, read the
fix-msg flag, delegate to `parseInstantiateArgs`, and assemble
`MsgInstantiateContract2`. -/
def InstantiateContract2Cmd
    (parseUint : String → Except String Nat)
    (parseCoins : String → Except String Coins)
    (parseAddr krKey : String → Except String Addr)
    (validateBasic : MsgInstantiateContract → Option String)
    (rawCodeID initMsg saltArg : String) (sender : Addr)
    (amountStr label adminStr : String) (noAdmin fixMsg : Bool) :
    Except String MsgInstantiateContract2 :=
  match hexDecode saltArg with
  | Except.error e => Except.error ("salt: " ++ e)
  | Except.ok salt =>
    match parseInstantiateArgs parseUint parseCoins parseAddr krKey validateBasic
        rawCodeID initMsg sender amountStr label adminStr noAdmin with
    | Except.error e => Except.error e
    | Except.ok data =>
      Except.ok (MsgInstantiateContract2.mk data.sender data.admin data.codeID
        data.label data.msg data.funds salt fixMsg)

/-- Embeds `parseExecuteArgs` (tx.go lines 387-404): only the amount flag is
parsed; the contract address string and payload are stored verbatim. -/
def parseExecuteArgs (parseCoins : String → Except String Coins)
    (contractAddr execMsg : String) (sender : Addr) (amountStr : String) :
    Except String MsgExecuteContract :=
  match parseCoins amountStr with
  | Except.error e => Except.error e
  | Except.ok amount =>
    Except.ok (MsgExecuteContract.mk sender contractAddr amount execMsg)

/-- Splitting a character list around every occurrence of a separator,
as Go `strings.Split` does with a one-character separator; the
accumulator holds the current field reversed. -/
def goSplitAux (sep : Char) : List Char → List Char → List (List Char)
  | [], acc => [acc.reverse]
  | c :: rest, acc =>
    if c = sep then acc.reverse :: goSplitAux sep rest []
    else goSplitAux sep rest (c :: acc)

/-- Go `strings.Split` with a one-character separator: always returns at
least one field, and `n` separators give `n + 1` fields. -/
def goSplit (sep : Char) (s : String) : List String :=
  (goSplitAux sep s.data []).map String.mk

/-- Embeds `parseStoreCodeGrants` (tx.go lines 621-648).  Each token must split
on `:` into exactly two parts; a `*` policy yields a grant with no
permission; otherwise the policy is handed to `parseAccessConfig`
(repository code outside this file, taken as a parameter). -/
def parseStoreCodeGrants (parseAccessCfg : String → Except String AccessConfig) :
    List String → Except String (List CodeGrant)
  | [] => Except.ok []
  | c :: rest =>
    match goSplit ':' c with
    | [hash, policy] =>
      if policy = "*" then
        match parseStoreCodeGrants parseAccessCfg rest with
        | Except.error e => Except.error e
        | Except.ok gs => Except.ok (CodeGrant.mk hash none :: gs)
      else
        match parseAccessCfg policy with
        | Except.error e => Except.error e
        | Except.ok accessConfig =>
          match parseStoreCodeGrants parseAccessCfg rest with
          | Except.error e => Except.error e
          | Except.ok gs => Except.ok (CodeGrant.mk hash (some accessConfig) :: gs)
    | _ => Except.error "invalid format"

/-- The `RunE` body of `GrantAuthorizationCmd` (tx.go lines 433-550)
after client-context plumbing: parse grantee and contract, require a
non-zero expiration, resolve limit and filter, build the contract grant
(`types.NewContractGrant` is a parameter, as is `authz.NewMsgGrant`),
wrap it per the grant-kind token, and assemble the grant message. -/
def GrantAuthorizationCmd
    (parseAddr : String → Except String Addr)
    (parseCoins : String → Except String Coins)
    (newContractGrant : Addr → ContractAuthzLimitX → ContractAuthzFilterX → Except String ContractGrant)
    (newMsgGrant : Addr → Addr → Authorization → Option Int → Except String MsgGrant)
    (fromAddr : Addr) (granteeArg msgType contractArg : String)
    (msgKeys rawMsgs : List String) (maxFundsStr : String) (maxCalls : Nat)
    (exp : Int) (allowAllMsgs noTokenTransfer : Bool) :
    Except String MsgGrant :=
  match parseAddr granteeArg with
  | Except.error e => Except.error e
  | Except.ok grantee =>
    match parseAddr contractArg with
    | Except.error e => Except.error e
    | Except.ok contract =>
      if exp = 0 then
        Except.error "expiration must be set"
      else
        match resolveLimit parseCoins maxFundsStr maxCalls noTokenTransfer with
        | Except.error e => Except.error e
        | Except.ok limit =>
          match resolveFilter allowAllMsgs msgKeys rawMsgs with
          | Except.error e => Except.error e
          | Except.ok filter =>
            match newContractGrant contract limit filter with
            | Except.error e => Except.error e
            | Except.ok grant =>
              match
                (if msgType = "execution" then
                  Except.ok (Authorization.contractExecution grant)
                else if msgType = "migration" then
                  Except.ok (Authorization.contractMigration grant)
                else
                  Except.error (msgType ++ " authorization type not supported")) with
              | Except.error e => Except.error e
              | Except.ok auth =>
                newMsgGrant fromAddr grantee auth (getExpireTime exp)

/-- The `RunE` body of `GrantStoreCodeAuthorizationCmd` (tx.go lines
574-602) after client-context plumbing: parse grantee, parse the
`hash:policy` tokens, and assemble the grant message with the optional
expiration from `getExpireTime`. -/
def GrantStoreCodeAuthorizationCmd
    (parseAddr : String → Except String Addr)
    (parseAccessCfg : String → Except String AccessConfig)
    (newMsgGrant : Addr → Addr → Authorization → Option Int → Except String MsgGrant)
    (fromAddr : Addr) (granteeArg : String) (grantTokens : List String)
    (exp : Int) : Except String MsgGrant :=
  match parseAddr granteeArg with
  | Except.error e => Except.error e
  | Except.ok grantee =>
    match parseStoreCodeGrants parseAccessCfg grantTokens with
    | Except.error e => Except.error e
    | Except.ok grants =>
      newMsgGrant fromAddr grantee (Authorization.storeCode grants) (getExpireTime exp)

/-- Claim C1: after a non-zero expiration is accepted, limit resolution in
the contract authorization grant builder matches exactly the three table
rows: max-funds non-empty with max-calls non-zero and no-token-transfer
false gives Combined; max-funds non-empty with max-calls zero and
no-token-transfer false gives MaxFunds; max-calls non-zero with
no-token-transfer true and max-funds empty gives MaxCalls; every other
combination of the three flags fails with "invalid limit setup". -/
theorem limit_resolution_matches_table
    (parseCoins : String → Except String Coins)
    (maxFundsStr : String) (maxCalls : Nat) (noTokenTransfer : Bool)
    (funds : Coins) :
    (maxFundsStr ≠ "" → maxCalls ≠ 0 → noTokenTransfer = false →
      parseCoins maxFundsStr = Except.ok funds →
      resolveLimit parseCoins maxFundsStr maxCalls noTokenTransfer =
        Except.ok (ContractAuthzLimitX.combined maxCalls funds)) ∧
    (maxFundsStr ≠ "" → maxCalls = 0 → noTokenTransfer = false →
      parseCoins maxFundsStr = Except.ok funds →
      resolveLimit parseCoins maxFundsStr maxCalls noTokenTransfer =
        Except.ok (ContractAuthzLimitX.maxFunds funds)) ∧
    (maxCalls ≠ 0 → noTokenTransfer = true → maxFundsStr = "" →
      resolveLimit parseCoins maxFundsStr maxCalls noTokenTransfer =
        Except.ok (ContractAuthzLimitX.maxCalls maxCalls)) ∧
    (¬(maxFundsStr ≠ "" ∧ maxCalls ≠ 0 ∧ noTokenTransfer = false) →
      ¬(maxFundsStr ≠ "" ∧ maxCalls = 0 ∧ noTokenTransfer = false) →
      ¬(maxCalls ≠ 0 ∧ noTokenTransfer = true ∧ maxFundsStr = "") →
      resolveLimit parseCoins maxFundsStr maxCalls noTokenTransfer =
        Except.error "invalid limit setup") := by
  refine ⟨?_, ?_, ?_, ?_⟩
  · intros; simp_all [resolveLimit]
  · intros; simp_all [resolveLimit]
  · intros; simp_all [resolveLimit]
  · intro h1 h2 h3
    unfold resolveLimit
    rw [if_neg h1, if_neg h2, if_neg h3]

/-- Witness for C1 at the spec scenario `max-calls=5`,
`max-funds="100uwasm"`, `no-token-transfer=false`. -/
theorem limit_resolution_matches_table_witness :
    resolveLimit (fun _ => Except.ok [Coin.mk "uwasm" 100]) "100uwasm" 5 false =
      Except.ok (ContractAuthzLimitX.combined 5 [Coin.mk "uwasm" 100]) :=
  (limit_resolution_matches_table (fun _ => Except.ok [Coin.mk "uwasm" 100])
    "100uwasm" 5 false [Coin.mk "uwasm" 100]).1 (by decide) (by decide) rfl rfl

/-- Claim C2: filter resolution never produces a composite: two or more
simultaneous selectors fail with "cannot set more than one filter within
one grant", zero selectors fail with "invalid filter setup", and exactly
one selector yields respectively AllowAll, AcceptedKeys, or
AcceptedRawMessages. -/
theorem filter_resolution_exclusive
    (allowAllMsgs : Bool) (msgKeys rawMsgs : List String) :
    ((allowAllMsgs = true ∧ msgKeys ≠ []) ∨ (allowAllMsgs = true ∧ rawMsgs ≠ []) ∨
        (msgKeys ≠ [] ∧ rawMsgs ≠ []) →
      resolveFilter allowAllMsgs msgKeys rawMsgs =
        Except.error "cannot set more than one filter within one grant") ∧
    (allowAllMsgs = false → msgKeys = [] → rawMsgs = [] →
      resolveFilter allowAllMsgs msgKeys rawMsgs = Except.error "invalid filter setup") ∧
    (allowAllMsgs = true → msgKeys = [] → rawMsgs = [] →
      resolveFilter allowAllMsgs msgKeys rawMsgs = Except.ok ContractAuthzFilterX.allowAll) ∧
    (allowAllMsgs = false → msgKeys ≠ [] → rawMsgs = [] →
      resolveFilter allowAllMsgs msgKeys rawMsgs =
        Except.ok (ContractAuthzFilterX.acceptedMessageKeys msgKeys)) ∧
    (allowAllMsgs = false → msgKeys = [] → rawMsgs ≠ [] →
      resolveFilter allowAllMsgs msgKeys rawMsgs =
        Except.ok (ContractAuthzFilterX.acceptedMessages rawMsgs)) := by
  refine ⟨?_, ?_, ?_, ?_, ?_⟩ <;> intros <;> simp_all [resolveFilter]

/-- Witness for C2: allow-all-messages together with a non-empty
message-key list fails. -/
theorem filter_resolution_exclusive_witness :
    resolveFilter true ["transfer"] [] =
      Except.error "cannot set more than one filter within one grant" :=
  (filter_resolution_exclusive true ["transfer"] []).1 (Or.inl (by decide))

/-- Claim C6: in the contract authorization grant builder a zero
expiration is rejected with "expiration must be set" before limit and
filter resolution run: whatever the limit and filter flags are, and
whatever the coin parser and grant constructors do, the command fails
with that error once the grantee and contract addresses have parsed. -/
theorem grant_zero_expiration_rejected
    (parseAddr : String → Except String Addr)
    (parseCoins : String → Except String Coins)
    (newContractGrant : Addr → ContractAuthzLimitX → ContractAuthzFilterX → Except String ContractGrant)
    (newMsgGrant : Addr → Addr → Authorization → Option Int → Except String MsgGrant)
    (fromAddr : Addr) (granteeArg msgType contractArg : String)
    (msgKeys rawMsgs : List String) (maxFundsStr : String) (maxCalls : Nat)
    (allowAllMsgs noTokenTransfer : Bool) (grantee contract : Addr)
    (h1 : parseAddr granteeArg = Except.ok grantee)
    (h2 : parseAddr contractArg = Except.ok contract) :
    GrantAuthorizationCmd parseAddr parseCoins newContractGrant newMsgGrant
      fromAddr granteeArg msgType contractArg msgKeys rawMsgs maxFundsStr
      maxCalls 0 allowAllMsgs noTokenTransfer =
      Except.error "expiration must be set" := by
  simp [GrantAuthorizationCmd, h1, h2]

/-- Witness for C6 with an invalid limit setup and a doubled filter:
the expiration error still wins. -/
theorem grant_zero_expiration_rejected_witness :
    GrantAuthorizationCmd (fun s => Except.ok s) (fun _ => Except.error "bad coins")
      (fun c l f => Except.ok (ContractGrant.mk c l f))
      (fun granter grantee a e => Except.ok (MsgGrant.mk granter grantee a e))
      "granter1" "grantee1" "execution" "contract1" ["k"] ["r"] "" 0 0 true true =
      Except.error "expiration must be set" :=
  grant_zero_expiration_rejected (fun s => Except.ok s) (fun _ => Except.error "bad coins")
    (fun c l f => Except.ok (ContractGrant.mk c l f))
    (fun granter grantee a e => Except.ok (MsgGrant.mk granter grantee a e))
    "granter1" "grantee1" "execution" "contract1" ["k"] ["r"] "" 0 true true
    "grantee1" "contract1" rfl rfl

/-- Claim C8: the execute request builder fails exactly when the amount
string fails to parse (and then propagates that error verbatim); on
success the Contract field is the input address string stored verbatim
and Msg is the raw payload. -/
theorem execute_args_spec
    (parseCoins : String → Except String Coins)
    (contractAddr execMsg : String) (sender : Addr) (amountStr : String) :
    (∀ amount, parseCoins amountStr = Except.ok amount →
      parseExecuteArgs parseCoins contractAddr execMsg sender amountStr =
        Except.ok (MsgExecuteContract.mk sender contractAddr amount execMsg)) ∧
    (∀ e, parseCoins amountStr = Except.error e →
      parseExecuteArgs parseCoins contractAddr execMsg sender amountStr =
        Except.error e) := by
  constructor <;> intro x hx <;> simp [parseExecuteArgs, hx]

/-- Witness for C8: an unvalidated contract string and opaque payload
pass through untouched. -/
theorem execute_args_spec_witness :
    parseExecuteArgs (fun _ => Except.ok []) "not-an-address" "payload" "sender1" "" =
      Except.ok (MsgExecuteContract.mk "sender1" "not-an-address" [] "payload") :=
  (execute_args_spec (fun _ => Except.ok []) "not-an-address" "payload" "sender1" "").1 [] rfl

/-- Claim C9: for the store-code grant command a zero expiration flag is
not an error: `getExpireTime` returns no expiration and the grant message
is built with `none`, in contrast to the contract grant command, which
rejects a zero expiration before building. -/
theorem store_code_grant_zero_expiration_ok
    (parseAddr : String → Except String Addr)
    (parseAccessCfg : String → Except String AccessConfig)
    (newMsgGrant : Addr → Addr → Authorization → Option Int → Except String MsgGrant)
    (fromAddr : Addr) (granteeArg : String) (grantTokens : List String)
    (grantee : Addr) (grants : List CodeGrant)
    (h1 : parseAddr granteeArg = Except.ok grantee)
    (h2 : parseStoreCodeGrants parseAccessCfg grantTokens = Except.ok grants) :
    getExpireTime 0 = none ∧
    GrantStoreCodeAuthorizationCmd parseAddr parseAccessCfg newMsgGrant
      fromAddr granteeArg grantTokens 0 =
      newMsgGrant fromAddr grantee (Authorization.storeCode grants) none ∧
    (∀ parseCoins newContractGrant msgType contractArg msgKeys rawMsgs
        maxFundsStr maxCalls allowAllMsgs noTokenTransfer contract,
      parseAddr contractArg = Except.ok contract →
      GrantAuthorizationCmd parseAddr parseCoins newContractGrant newMsgGrant
        fromAddr granteeArg msgType contractArg msgKeys rawMsgs maxFundsStr
        maxCalls 0 allowAllMsgs noTokenTransfer =
        Except.error "expiration must be set") := by
  refine ⟨rfl, ?_, ?_⟩
  · simp [GrantStoreCodeAuthorizationCmd, h1, h2, getExpireTime]
  · intro parseCoins newContractGrant msgType contractArg msgKeys rawMsgs
      maxFundsStr maxCalls allowAllMsgs noTokenTransfer contract hc
    simp [GrantAuthorizationCmd, h1, hc]

/-- Witness for C9: a zero expiration store-code grant succeeds with no
expiration attached. -/
theorem store_code_grant_zero_expiration_ok_witness :
    GrantStoreCodeAuthorizationCmd (fun s => Except.ok s) (fun s => Except.error s)
      (fun granter grantee a e => Except.ok (MsgGrant.mk granter grantee a e))
      "granter1" "grantee1" ["abc:*"] 0 =
      Except.ok (MsgGrant.mk "granter1" "grantee1"
        (Authorization.storeCode [CodeGrant.mk "abc" none]) none) :=
  (store_code_grant_zero_expiration_ok (fun s => Except.ok s) (fun s => Except.error s)
    (fun granter grantee a e => Except.ok (MsgGrant.mk granter grantee a e))
    "granter1" "grantee1" ["abc:*"] "grantee1" [CodeGrant.mk "abc" none] rfl rfl).2.1

/-- Claim C10: a max-calls value of 0 behaves like an unset flag: no
limit with a zero call count is ever produced — max-funds with
max-calls=0 yields MaxFunds rather than Combined(0, funds), and
max-calls=0 with no-token-transfer=true fails with "invalid limit
setup" rather than yielding MaxCalls(0). -/
theorem no_zero_max_calls_limit
    (parseCoins : String → Except String Coins)
    (maxFundsStr : String) (maxCalls : Nat) (noTokenTransfer : Bool)
    (funds : Coins) :
    (∀ c, resolveLimit parseCoins maxFundsStr maxCalls noTokenTransfer ≠
      Except.ok (ContractAuthzLimitX.combined 0 c)) ∧
    (resolveLimit parseCoins maxFundsStr maxCalls noTokenTransfer ≠
      Except.ok (ContractAuthzLimitX.maxCalls 0)) ∧
    (maxFundsStr ≠ "" → parseCoins maxFundsStr = Except.ok funds →
      resolveLimit parseCoins maxFundsStr 0 false =
        Except.ok (ContractAuthzLimitX.maxFunds funds)) ∧
    (resolveLimit parseCoins maxFundsStr 0 true =
      Except.error "invalid limit setup") := by
  refine ⟨?_, ?_, ?_, ?_⟩
  · intro c
    unfold resolveLimit
    split_ifs with h1 h2 h3 <;> try simp_all
    · cases hp : parseCoins maxFundsStr <;> simp_all
    · cases hp : parseCoins maxFundsStr <;> simp_all
  · unfold resolveLimit
    split_ifs with h1 h2 h3 <;> try simp_all
    · cases hp : parseCoins maxFundsStr <;> simp_all
    · cases hp : parseCoins maxFundsStr <;> simp_all
  · intro hs hp
    simp [resolveLimit, hs, hp]
  · unfold resolveLimit
    split_ifs with h1 h2 h3 <;> simp_all

/-- Witness for C10: max-funds set with max-calls 0 gives MaxFunds. -/
theorem no_zero_max_calls_limit_witness :
    resolveLimit (fun _ => Except.ok [Coin.mk "uwasm" 100]) "100uwasm" 0 true =
      Except.error "invalid limit setup" :=
  (no_zero_max_calls_limit (fun _ => Except.ok [Coin.mk "uwasm" 100])
    "100uwasm" 0 true [Coin.mk "uwasm" 100]).2.2.2

/-- Claim C3: with otherwise valid inputs, the admin check of the
instantiate request builder succeeds iff exactly one of {admin string
non-empty, no-admin flag} holds; both-unset and both-set fail with the
dedicated errors; a non-empty admin string is first tried as a bech32
address and only on parse failure resolved through the keyring, whose
failure surfaces as an admin-specific error. -/
theorem instantiate_admin_exactly_one
    (parseUint : String → Except String Nat)
    (parseCoins : String → Except String Coins)
    (parseAddr krKey : String → Except String Addr)
    (validateBasic : MsgInstantiateContract → Option String)
    (rawCodeID initMsg : String) (sender : Addr)
    (amountStr label adminStr : String) (noAdmin : Bool)
    (codeID : Nat) (amount : Coins)
    (h1 : parseUint rawCodeID = Except.ok codeID)
    (h2 : parseCoins amountStr = Except.ok amount)
    (h3 : label ≠ "")
    (h4 : ∀ m, validateBasic m = none) :
    (adminStr = "" → noAdmin = false →
      parseInstantiateArgs parseUint parseCoins parseAddr krKey validateBasic
        rawCodeID initMsg sender amountStr label adminStr noAdmin =
        Except.error "you must set an admin or explicitly pass --no-admin to make it immutable (wasmd issue #719)") ∧
    (adminStr ≠ "" → noAdmin = true →
      parseInstantiateArgs parseUint parseCoins parseAddr krKey validateBasic
        rawCodeID initMsg sender amountStr label adminStr noAdmin =
        Except.error "you set an admin and passed --no-admin, those cannot both be true") ∧
    (∀ addr, adminStr ≠ "" → noAdmin = false → parseAddr adminStr = Except.ok addr →
      parseInstantiateArgs parseUint parseCoins parseAddr krKey validateBasic
        rawCodeID initMsg sender amountStr label adminStr noAdmin =
        Except.ok (MsgInstantiateContract.mk sender codeID label amount initMsg addr)) ∧
    (∀ e0 addr, adminStr ≠ "" → noAdmin = false → parseAddr adminStr = Except.error e0 →
      krKey adminStr = Except.ok addr →
      parseInstantiateArgs parseUint parseCoins parseAddr krKey validateBasic
        rawCodeID initMsg sender amountStr label adminStr noAdmin =
        Except.ok (MsgInstantiateContract.mk sender codeID label amount initMsg addr)) ∧
    (∀ e0 e, adminStr ≠ "" → noAdmin = false → parseAddr adminStr = Except.error e0 →
      krKey adminStr = Except.error e →
      parseInstantiateArgs parseUint parseCoins parseAddr krKey validateBasic
        rawCodeID initMsg sender amountStr label adminStr noAdmin =
        Except.error ("admin " ++ e)) ∧
    (adminStr = "" → noAdmin = true →
      parseInstantiateArgs parseUint parseCoins parseAddr krKey validateBasic
        rawCodeID initMsg sender amountStr label adminStr noAdmin =
        Except.ok (MsgInstantiateContract.mk sender codeID label amount initMsg "")) ∧
    ((adminStr ≠ "" → (∃ a, parseAddr adminStr = Except.ok a) ∨ (∃ a, krKey adminStr = Except.ok a)) →
      ((∃ m, parseInstantiateArgs parseUint parseCoins parseAddr krKey validateBasic
          rawCodeID initMsg sender amountStr label adminStr noAdmin = Except.ok m) ↔
        ((adminStr ≠ "" ∧ noAdmin = false) ∨ (adminStr = "" ∧ noAdmin = true)))) := by
  refine ⟨?_, ?_, ?_, ?_, ?_, ?_, ?_⟩
  · intro ha hn
    simp_all [parseInstantiateArgs]
  · intro ha hn
    simp_all [parseInstantiateArgs]
  · intro addr ha hn hp
    simp_all [parseInstantiateArgs, resolveAdmin]
  · intro e0 addr ha hn hp hk
    simp_all [parseInstantiateArgs, resolveAdmin]
  · intro e0 e ha hn hp hk
    simp_all [parseInstantiateArgs, resolveAdmin]
  · intro ha hn
    simp_all [parseInstantiateArgs, resolveAdmin]
  · intro hres
    constructor
    · rintro ⟨m, hm⟩
      by_cases ha : adminStr = "" <;> cases hn : noAdmin
      · simp_all [parseInstantiateArgs]
      · exact Or.inr ⟨ha, rfl⟩
      · exact Or.inl ⟨ha, rfl⟩
      · simp_all [parseInstantiateArgs]
    · rintro (⟨ha, hn⟩ | ⟨ha, hn⟩)
      · cases hpa : parseAddr adminStr with
        | ok addr =>
          exact ⟨MsgInstantiateContract.mk sender codeID label amount initMsg addr,
            by simp_all [parseInstantiateArgs, resolveAdmin]⟩
        | error e0 =>
          rcases hres ha with ⟨a, hk⟩ | ⟨a, hk⟩
          · rw [hpa] at hk; cases hk
          · exact ⟨MsgInstantiateContract.mk sender codeID label amount initMsg a,
              by simp_all [parseInstantiateArgs, resolveAdmin]⟩
      · exact ⟨MsgInstantiateContract.mk sender codeID label amount initMsg "",
          by simp_all [parseInstantiateArgs, resolveAdmin]⟩

/-- Witness for C3: keyring alias fallback succeeds when bech32 parsing
fails and exactly one of the two admin selectors is set. -/
theorem instantiate_admin_exactly_one_witness :
    parseInstantiateArgs (fun _ => Except.ok 1) (fun _ => Except.ok [])
      (fun _ => Except.error "decoding bech32 failed") (fun _ => Except.ok "wasm1resolved")
      (fun _ => none) "1" "init" "sender1" "" "local" "mykey" false =
      Except.ok (MsgInstantiateContract.mk "sender1" 1 "local" [] "init" "wasm1resolved") :=
  (instantiate_admin_exactly_one (fun _ => Except.ok 1) (fun _ => Except.ok [])
    (fun _ => Except.error "decoding bech32 failed") (fun _ => Except.ok "wasm1resolved")
    (fun _ => none) "1" "init" "sender1" "" "local" "mykey" false 1 []
    rfl rfl (by decide) (fun _ => rfl)).2.2.2.1 "decoding bech32 failed" "wasm1resolved"
    (by decide) rfl rfl rfl

/-- If every entry before `v` parses and `v` fails, the address-list loop
stops at `v` with an error naming it. -/
theorem parseAddrList_stops_at_bad
    (parseAddr : String → Except String Addr) :
    ∀ (pre : List String) (v : String) (rest : List String) (e : String),
      (∀ u, u ∈ pre → ∃ a, parseAddr u = Except.ok a) →
      parseAddr v = Except.error e →
      parseAddrList parseAddr (pre ++ v :: rest) =
        Except.error ("parse " ++ quoteStr v ++ ": " ++ e)
  | [], v, rest, e, _, hv => by simp [parseAddrList, hv]
  | u :: pre, v, rest, e, hpre, hv => by
    obtain ⟨a, ha⟩ := hpre u (List.mem_cons_self u pre)
    have ih := parseAddrList_stops_at_bad parseAddr pre v rest e
      (fun w hw => hpre w (List.mem_cons_of_mem u hw)) hv
    simp [parseAddrList, ha, ih]

/-- Claim C5: the permission encoder evaluates its rules in precedence
order: a non-empty address list wins and yields AnyOfAddresses once every
entry parses, with a per-entry error naming the first offending value
otherwise; else a non-empty deprecated single-address flag always fails;
else everybody=true yields Everybody; else nobody=true yields Nobody;
else the result is nil; malformed boolean text fails with an error naming
the flag. -/
theorem access_config_flags_precedence
    (parseAddr : String → Except String Addr)
    (addrs : List String) (onlyAddrStr everybodyStr nobodyStr : String) :
    (∀ acceptedAddrs, addrs ≠ [] →
      parseAddrList parseAddr addrs = Except.ok acceptedAddrs →
      parseAccessConfigFlags parseAddr addrs onlyAddrStr everybodyStr nobodyStr =
        Except.ok (some (AccessConfig.anyOfAddresses acceptedAddrs))) ∧
    (∀ pre v rest e, addrs = pre ++ v :: rest →
      (∀ u, u ∈ pre → ∃ a, parseAddr u = Except.ok a) →
      parseAddr v = Except.error e →
      parseAccessConfigFlags parseAddr addrs onlyAddrStr everybodyStr nobodyStr =
        Except.error ("parse " ++ quoteStr v ++ ": " ++ e)) ∧
    (addrs = [] → onlyAddrStr ≠ "" →
      parseAccessConfigFlags parseAddr addrs onlyAddrStr everybodyStr nobodyStr =
        Except.error ("not supported anymore. Use: " ++ flagInstantiateByAnyOfAddress)) ∧
    (addrs = [] → onlyAddrStr = "" → goParseBool everybodyStr = some true →
      parseAccessConfigFlags parseAddr addrs onlyAddrStr everybodyStr nobodyStr =
        Except.ok (some AccessConfig.everybody)) ∧
    (addrs = [] → onlyAddrStr = "" →
      (everybodyStr = "" ∨ goParseBool everybodyStr = some false) →
      goParseBool nobodyStr = some true →
      parseAccessConfigFlags parseAddr addrs onlyAddrStr everybodyStr nobodyStr =
        Except.ok (some AccessConfig.nobody)) ∧
    (addrs = [] → onlyAddrStr = "" →
      (everybodyStr = "" ∨ goParseBool everybodyStr = some false) →
      (nobodyStr = "" ∨ goParseBool nobodyStr = some false) →
      parseAccessConfigFlags parseAddr addrs onlyAddrStr everybodyStr nobodyStr =
        Except.ok none) ∧
    (addrs = [] → onlyAddrStr = "" → everybodyStr ≠ "" →
      goParseBool everybodyStr = none →
      parseAccessConfigFlags parseAddr addrs onlyAddrStr everybodyStr nobodyStr =
        Except.error ("boolean value expected for instantiate by everybody: " ++ parseBoolErr everybodyStr)) ∧
    (addrs = [] → onlyAddrStr = "" →
      (everybodyStr = "" ∨ goParseBool everybodyStr = some false) →
      nobodyStr ≠ "" → goParseBool nobodyStr = none →
      parseAccessConfigFlags parseAddr addrs onlyAddrStr everybodyStr nobodyStr =
        Except.error ("boolean value expected for instantiate by nobody: " ++ parseBoolErr nobodyStr)) := by
  have hbool : ∀ s b, goParseBool s = some b → s ≠ "" := by
    intro s b h hs
    rw [hs] at h
    simp [goParseBool] at h
  refine ⟨?_, ?_, ?_, ?_, ?_, ?_, ?_, ?_⟩
  · intro acceptedAddrs hne hok
    simp_all [parseAccessConfigFlags]
  · intro pre v rest e haddrs hpre hv
    have hstop := parseAddrList_stops_at_bad parseAddr pre v rest e hpre hv
    subst haddrs
    have hne : pre ++ v :: rest ≠ [] := by simp
    simp_all [parseAccessConfigFlags]
  · intro ha ho
    simp_all [parseAccessConfigFlags]
  · intro ha ho he
    have hne := hbool everybodyStr true he
    simp_all [parseAccessConfigFlags]
  · intro ha ho he hn
    have hne := hbool nobodyStr true hn
    subst ha ho
    rcases he with he | he <;>
      simp_all [parseAccessConfigFlags, accessConfigNobody, hbool everybodyStr false]
  · intro ha ho he hn
    subst ha ho
    rcases he with he | he <;> rcases hn with hn | hn <;>
      simp_all [parseAccessConfigFlags, accessConfigNobody]
  · intro ha ho hne he
    simp_all [parseAccessConfigFlags]
  · intro ha ho he hne hn
    subst ha ho
    rcases he with he | he <;>
      simp_all [parseAccessConfigFlags, accessConfigNobody]

/-- Witness for C5: the deprecated single-address flag fails even though
nothing else is set. -/
theorem access_config_flags_precedence_witness :
    parseAccessConfigFlags (fun s => Except.ok s) [] "wasm1old" "" "" =
      Except.error ("not supported anymore. Use: " ++ flagInstantiateByAnyOfAddress) :=
  (access_config_flags_precedence (fun s => Except.ok s) [] "wasm1old" "" "").2.2.1
    rfl (by decide)

/-- An odd-length character list never hex-decodes: the pair-consuming
loop ends on a single trailing character and reports an error. -/
theorem hexDecodeCore_odd_fails :
    ∀ l : List Char, l.length % 2 = 1 → ∃ e, hexDecodeCore l = Except.error e
  | [], h => by simp at h
  | [a], _ => by
    unfold hexDecodeCore
    cases hexDigitVal a <;> exact ⟨_, rfl⟩
  | a :: b :: rest, h => by
    have hr : rest.length % 2 = 1 := by
      simp only [List.length_cons] at h
      omega
    obtain ⟨e, he⟩ := hexDecodeCore_odd_fails rest hr
    unfold hexDecodeCore
    cases hexDigitVal a with
    | none => exact ⟨_, rfl⟩
    | some x =>
      cases hexDigitVal b with
      | none => exact ⟨_, rfl⟩
      | some y => exact ⟨e, by simp [he]⟩

/-- Claim C7: in the deterministic-address builder the salt argument is
hex-decoded before any shared instantiate validation: whenever the salt
fails to decode — in particular for every odd-length salt string — the
command fails with a salt-specific error, for all values of the other
inputs and collaborators. -/
theorem instantiate2_salt_decoded_first
    (parseUint : String → Except String Nat)
    (parseCoins : String → Except String Coins)
    (parseAddr krKey : String → Except String Addr)
    (validateBasic : MsgInstantiateContract → Option String)
    (rawCodeID initMsg saltArg : String) (sender : Addr)
    (amountStr label adminStr : String) (noAdmin fixMsg : Bool) :
    (∀ e, hexDecode saltArg = Except.error e →
      InstantiateContract2Cmd parseUint parseCoins parseAddr krKey validateBasic
        rawCodeID initMsg saltArg sender amountStr label adminStr noAdmin fixMsg =
        Except.error ("salt: " ++ e)) ∧
    (saltArg.length % 2 = 1 → ∃ e, hexDecode saltArg = Except.error e) ∧
    (saltArg.length % 2 = 1 →
      ∃ e, InstantiateContract2Cmd parseUint parseCoins parseAddr krKey validateBasic
        rawCodeID initMsg saltArg sender amountStr label adminStr noAdmin fixMsg =
        Except.error ("salt: " ++ e)) := by
  refine ⟨?_, ?_, ?_⟩
  · intro e he
    simp [InstantiateContract2Cmd, he]
  · intro hodd
    exact hexDecodeCore_odd_fails saltArg.data hodd
  · intro hodd
    obtain ⟨e, he⟩ := hexDecodeCore_odd_fails saltArg.data hodd
    exact ⟨e, by simp [InstantiateContract2Cmd, hexDecode, he]⟩

/-- Witness for C7: a three-character hex string fails with a salt error
even though the label is empty and the admin flags contradict, which
would otherwise fail later in shared validation. -/
theorem instantiate2_salt_decoded_first_witness :
    InstantiateContract2Cmd (fun _ => Except.ok 1) (fun _ => Except.ok [])
      (fun s => Except.ok s) (fun s => Except.ok s) (fun _ => none)
      "1" "init" "abc" "sender1" "" "" "admin1" true true =
      Except.error ("salt: " ++ "encoding/hex: odd length hex string") :=
  (instantiate2_salt_decoded_first (fun _ => Except.ok 1) (fun _ => Except.ok [])
    (fun s => Except.ok s) (fun s => Except.ok s) (fun _ => none)
    "1" "init" "abc" "sender1" "" "" "admin1" true true).1
    "encoding/hex: odd length hex string" rfl

/-- If a prefix of tokens parses fine and the next token does not split
into exactly two parts, the store-code grant parser fails with
"invalid format". -/
theorem parseStoreCodeGrants_bad_token
    (parseAccessCfg : String → Except String AccessConfig) :
    ∀ (pre : List String) (gs0 : List CodeGrant) (t : String) (rest : List String),
      parseStoreCodeGrants parseAccessCfg pre = Except.ok gs0 →
      (goSplit ':' t).length ≠ 2 →
      parseStoreCodeGrants parseAccessCfg (pre ++ t :: rest) =
        Except.error "invalid format" := by
  intro pre
  induction pre with
  | nil =>
    intro gs0 t rest _ hlen
    rcases hsp : goSplit ':' t with _ | ⟨x, _ | ⟨y, _ | ⟨z, tl⟩⟩⟩ <;>
      simp_all [parseStoreCodeGrants]
  | cons c pre ih =>
    intro gs0 t rest hok hlen
    rcases hsp : goSplit ':' c with _ | ⟨x, _ | ⟨y, _ | ⟨z, tl⟩⟩⟩ <;>
      rw [parseStoreCodeGrants, hsp] at hok <;> try cases hok
    rw [List.cons_append, parseStoreCodeGrants, hsp]
    dsimp only at hok ⊢
    by_cases hstar : y = "*"
    · rw [if_pos hstar] at hok ⊢
      cases hrec : parseStoreCodeGrants parseAccessCfg pre with
      | error e => simp [hrec] at hok
      | ok gs1 => simp [ih gs1 t rest hrec hlen]
    · rw [if_neg hstar] at hok ⊢
      cases hcfg : parseAccessCfg y with
      | error e => simp [hcfg] at hok
      | ok cfg =>
        cases hrec : parseStoreCodeGrants parseAccessCfg pre with
        | error e => simp [hcfg, hrec] at hok
        | ok gs1 => simp [hcfg, ih gs1 t rest hrec hlen]

/-- A successful run of the store-code grant parser maps the input tokens
one-to-one, in order: the i-th grant carries the raw left-hand part of
the i-th token as its hash, no permission when the policy is `*`, and the
parsed permission otherwise. -/
theorem parseStoreCodeGrants_ok_ordered
    (parseAccessCfg : String → Except String AccessConfig) :
    ∀ (ts : List String) (gs : List CodeGrant),
      parseStoreCodeGrants parseAccessCfg ts = Except.ok gs →
      gs.length = ts.length ∧
      ∀ i (hi : i < ts.length) (hg : i < gs.length),
        ∃ hs ps, goSplit ':' (ts.get ⟨i, hi⟩) = [hs, ps] ∧
          (gs.get ⟨i, hg⟩).codeHash = hs ∧
          (ps = "*" → (gs.get ⟨i, hg⟩).instantiatePermission = none) ∧
          (ps ≠ "*" → ∃ cfg, parseAccessCfg ps = Except.ok cfg ∧
            (gs.get ⟨i, hg⟩).instantiatePermission = some cfg) := by
  intro ts
  induction ts with
  | nil =>
    intro gs hok
    rw [parseStoreCodeGrants] at hok
    cases hok
    exact ⟨rfl, fun i hi => absurd hi (Nat.not_lt_zero i)⟩
  | cons c rest ih =>
    intro gs hok
    rcases hsp : goSplit ':' c with _ | ⟨x, _ | ⟨y, _ | ⟨z, tl⟩⟩⟩ <;>
      rw [parseStoreCodeGrants, hsp] at hok <;> try cases hok
    dsimp only at hok
    by_cases hstar : y = "*"
    · rw [if_pos hstar] at hok
      cases hrec : parseStoreCodeGrants parseAccessCfg rest with
      | error e => rw [hrec] at hok; cases hok
      | ok gs1 =>
        rw [hrec] at hok
        cases hok
        obtain ⟨hlen, hidx⟩ := ih gs1 hrec
        refine ⟨by simp [hlen], ?_⟩
        intro i hi hg
        cases i with
        | zero => exact ⟨x, y, hsp, rfl, fun _ => rfl, fun hne => absurd hstar hne⟩
        | succ j =>
          exact hidx j (Nat.lt_of_succ_lt_succ hi) (Nat.lt_of_succ_lt_succ hg)
    · rw [if_neg hstar] at hok
      cases hcfg : parseAccessCfg y with
      | error e => rw [hcfg] at hok; cases hok
      | ok cfg =>
        rw [hcfg] at hok
        cases hrec : parseStoreCodeGrants parseAccessCfg rest with
        | error e => rw [hrec] at hok; cases hok
        | ok gs1 =>
          rw [hrec] at hok
          cases hok
          obtain ⟨hlen, hidx⟩ := ih gs1 hrec
          refine ⟨by simp [hlen], ?_⟩
          intro i hi hg
          cases i with
          | zero =>
            exact ⟨x, y, hsp, rfl, fun hy => absurd hy hstar,
              fun _ => ⟨cfg, hcfg, rfl⟩⟩
          | succ j =>
            exact hidx j (Nat.lt_of_succ_lt_succ hi) (Nat.lt_of_succ_lt_succ hg)

/-- Claim C4: the store-code grant parser fails with "invalid format" on
any token that does not split on `:` into exactly two parts (given the
earlier tokens parsed); a `*` policy yields a CodeGrant whose hash is the
raw left-hand token and which carries no permission; and a successful
parse maps the tokens one-to-one in input order, without deduplicating
or rejecting duplicate hashes. -/
theorem store_code_grants_format_and_order
    (parseAccessCfg : String → Except String AccessConfig)
    (ts : List String) :
    (∀ pre gs0 t rest, ts = pre ++ t :: rest →
      parseStoreCodeGrants parseAccessCfg pre = Except.ok gs0 →
      (goSplit ':' t).length ≠ 2 →
      parseStoreCodeGrants parseAccessCfg ts = Except.error "invalid format") ∧
    (∀ gs, parseStoreCodeGrants parseAccessCfg ts = Except.ok gs →
      gs.length = ts.length ∧
      ∀ i (hi : i < ts.length) (hg : i < gs.length),
        ∃ hs ps, goSplit ':' (ts.get ⟨i, hi⟩) = [hs, ps] ∧
          (gs.get ⟨i, hg⟩).codeHash = hs ∧
          (ps = "*" → (gs.get ⟨i, hg⟩).instantiatePermission = none) ∧
          (ps ≠ "*" → ∃ cfg, parseAccessCfg ps = Except.ok cfg ∧
            (gs.get ⟨i, hg⟩).instantiatePermission = some cfg)) := by
  constructor
  · intro pre gs0 t rest hts hok hlen
    rw [hts]
    exact parseStoreCodeGrants_bad_token parseAccessCfg pre gs0 t rest hok hlen
  · exact parseStoreCodeGrants_ok_ordered parseAccessCfg ts

/-- Witness for C4: token "abc:*" yields hash "abc" with no permission,
duplicates included and order preserved; a colonless token fails. -/
theorem store_code_grants_format_and_order_witness :
    parseStoreCodeGrants (fun s => Except.error s) ["abc:*", "abc"] =
      Except.error "invalid format" :=
  (store_code_grants_format_and_order (fun s => Except.error s) ["abc:*", "abc"]).1
    ["abc:*"] [CodeGrant.mk "abc" none] "abc" [] rfl rfl (by decide)
